import Mathlib

/-!
A shallow embedding of `sideeffect/main.py` (class `SideEffect`, helper
`typecheck`, convenience function `side_effect`).

Python values that flow through the dynamically typed arguments are
modelled by `PyVal`; a user callback is a `PyVal.func raises` whose only
observable behaviour in this model is whether it raises when invoked.
The stateful object is the structure `SideEffect`; each method becomes a
pure function returning the updated object.  `setState` additionally
returns the ordered list of `Act`s it performed (joining the tracked
thread, committing the state, invoking the effect synchronously,
launching an asynchronous effect thread) and an optional raised error,
so that ordering and effect-invocation-count properties can be stated.
A `join t` action models `Thread.join`: the running effect thread `t`
completes before any later action in the trace.  Launched thread handles
are modelled by the caller-supplied fresh id `nextTid`.
-/

/-- Model of the dynamically typed Python values relevant here: booleans,
a few non-boolean non-callable values, `None`, and callables (whose
behaviour is reduced to whether they raise when invoked). -/
inductive PyVal : Type where
  | bool (b : Bool)
  | int (n : Int)
  | str (s : String)
  | none
  | func (raises : Bool)
deriving DecidableEq

/-- Python `callable(obj)` on a `PyVal`. -/
def callable : PyVal → Bool
  | .func _ => true
  | _ => false

/-- Python `isinstance(obj, bool)` on a `PyVal`. -/
def isinstance_bool : PyVal → Bool
  | .bool _ => true
  | _ => false

/-- Errors raised by the modelled code: `TypeError` from `typecheck`, and
a failure raised by the user effect callback itself. -/
inductive PyErr : Type where
  | typeError
  | effectError
deriving DecidableEq

/-- The second argument of `typecheck`: either the type `bool` or the
string `"function"`. -/
inductive Datatype : Type where
  | boolTy
  | functionTy
deriving DecidableEq

/-- `typecheck(obj, datatype)` from `main.py`: raises `TypeError` when the
object does not match the expected datatype (callability check for
`"function"`, `isinstance` otherwise). -/
def typecheck (obj : PyVal) (datatype : Datatype) : Except PyErr Unit :=
  match datatype with
  | .functionTy => if callable obj then Except.ok () else Except.error PyErr.typeError
  | .boolTy => if isinstance_bool obj then Except.ok () else Except.error PyErr.typeError

/-- The `SideEffect` object: fields mirror the Python instance attributes.
`_side_effect_thread` holds the id of the tracked in-flight effect
thread, or `none`. -/
structure SideEffect (α : Type) : Type where
  _state : α
  _side_effect : PyVal
  _asynchronous : Bool
  _dependent : Bool
  _side_effect_paused : Bool
  _side_effect_thread : Option Nat
deriving DecidableEq

/-- Observable actions performed by one `setState` call, in order. -/
inductive Act : Type where
  | join (tid : Nat)
  | commit
  | invoke
  | launch (tid : Nat)
deriving DecidableEq

/-- Result of a `setState` call: the updated object, the ordered actions
performed, and the error propagated to the caller (if any). -/
structure SetStateOut (α : Type) : Type where
  cell : SideEffect α
  trace : List Act
  error : Option PyErr
deriving DecidableEq

/-- Result of `SideEffect.__init__`: either the constructed object, or a
`TypeError`; in the error case the `_state` attribute had already been
assigned (line `self._state = default` precedes the typechecks), and the
value it was assigned is recorded. -/
inductive InitResult (α : Type) : Type where
  | ok (cell : SideEffect α)
  | error (stateWritten : α)
deriving DecidableEq

/-- Whether `__init__` raised `TypeError`. -/
def InitResult.isError : InitResult α → Bool
  | .ok _ => false
  | .error _ => true

/-- The value held by the `_state` attribute after `__init__` finished or
raised. -/
def InitResult.stateField : InitResult α → α
  | .ok c => c._state
  | .error s => s

/-- `SideEffect.__init__(default, side_effect, asynchronous, dependent)`:
assigns `_state := default` first, then typechecks `side_effect` as a
callable and `asynchronous`, `dependent` as booleans, then fills the
remaining attributes. -/
def SideEffect.init (default : α) (se asyn dep : PyVal) : InitResult α :=
  match typecheck se Datatype.functionTy with
  | .error _ => .error default
  | .ok _ =>
    match typecheck asyn Datatype.boolTy with
    | .error _ => .error default
    | .ok _ =>
      match typecheck dep Datatype.boolTy with
      | .error _ => .error default
      | .ok _ =>
        .ok { _state := default
              _side_effect := se
              _asynchronous := match asyn with | .bool b => b | _ => false
              _dependent := match dep with | .bool b => b | _ => false
              _side_effect_paused := false
              _side_effect_thread := Option.none }

/-- The `state` property: returns `_state`. -/
def SideEffect.state (c : SideEffect α) : α := c._state

/-- `SideEffect.setState(value, asynchronous, cancel_side_effect)`.
Mirrors the Python body line by line: typecheck `asynchronous` when it is
not `None`, typecheck `cancel_side_effect`, resolve the effective mode,
join and clear the tracked thread when one exists and the object is
dependent, commit the new state, return early on skip or pause,
otherwise launch a thread (recording its handle) or invoke the effect
directly; a synchronous invocation of a raising effect propagates the
failure. `nextTid` is the fresh id of the thread a launch would create. -/
def SideEffect.setState (c : SideEffect α) (value : α) (asyn cse : PyVal)
    (nextTid : Nat) : SetStateOut α :=
  if asyn ≠ PyVal.none ∧ isinstance_bool asyn = false then
    { cell := c, trace := [], error := some PyErr.typeError }
  else if isinstance_bool cse = false then
    { cell := c, trace := [], error := some PyErr.typeError }
  else
    let effAsync : Bool := match asyn with | .bool b => b | _ => c._asynchronous
    let joinTrace : List Act :=
      match c._side_effect_thread with
      | some t => if c._dependent then [Act.join t] else []
      | Option.none => []
    let c1 :=
      if c._side_effect_thread.isSome ∧ c._dependent = true then
        { c with _side_effect_thread := Option.none }
      else c
    let c2 := { c1 with _state := value }
    let trace0 := joinTrace ++ [Act.commit]
    let cancel : Bool := match cse with | .bool b => b | _ => false
    if cancel = true ∨ c2._side_effect_paused = true then
      { cell := c2, trace := trace0, error := Option.none }
    else if effAsync then
      { cell := { c2 with _side_effect_thread := some nextTid }
        trace := trace0 ++ [Act.launch nextTid]
        error := Option.none }
    else
      { cell := c2
        trace := trace0 ++ [Act.invoke]
        error := if c2._side_effect = PyVal.func true
                 then some PyErr.effectError else Option.none }

/-- `disable_side_effect`: sets `_side_effect_paused := true`. -/
def SideEffect.disable_side_effect (c : SideEffect α) : SideEffect α :=
  { c with _side_effect_paused := true }

/-- `enable_side_effect`: sets `_side_effect_paused := false`. -/
def SideEffect.enable_side_effect (c : SideEffect α) : SideEffect α :=
  { c with _side_effect_paused := false }

/-- The convenience function `side_effect`: constructs a `SideEffect`
object and returns it together with the getter (the `state` property of
that object) and the setter (that object's `setState` method), exactly
as the Python returns `(lambda: _state.state, _state.setState)`.  When
construction raises, nothing is returned. -/
def side_effect (default : α) (se asyn dep : PyVal) :
    Option (SideEffect α × (SideEffect α → α) ×
      (SideEffect α → α → PyVal → PyVal → Nat → SetStateOut α)) :=
  match SideEffect.init default se asyn dep with
  | .ok c => some (c, SideEffect.state, SideEffect.setState)
  | .error _ => Option.none

/-- Number of synchronous effect invocations in a trace; for a counting
effect run in synchronous mode this is the counter increment. -/
def invocations (tr : List Act) : Nat :=
  (tr.filter fun a => match a with | Act.invoke => true | _ => false).length

/-- Number of asynchronous effect launches in a trace. -/
def launches (tr : List Act) : Nat :=
  (tr.filter fun a => match a with | Act.launch _ => true | _ => false).length

/-- Whether the trace triggers the effect at all, synchronously or by
launching a thread. -/
def effectTriggered (tr : List Act) : Bool :=
  tr.any fun a =>
    match a with
    | Act.invoke => true
    | Act.launch _ => true
    | _ => false

/-- C1: for a cell constructed with initial value 0, a counting effect,
`asynchronous = false` and `dependent = false`, the sequence
`setState 1`; `setState 2` with `cancel_side_effect = true`;
`disable_side_effect`; `setState 3`; `enable_side_effect`; `setState 4`
yields state 1 with counter 1, state 2 with counter 1, state 3 with
counter 1, and state 4 with counter 2 (the counter being the cumulative
number of effect invocations). -/
theorem C1_end_to_end_scenario :
    ∃ c0 : SideEffect Nat,
      SideEffect.init 0 (PyVal.func false) (PyVal.bool false) (PyVal.bool false)
        = InitResult.ok c0 ∧
      (let r1 := c0.setState 1 PyVal.none (PyVal.bool false) 0
       let r2 := r1.cell.setState 2 PyVal.none (PyVal.bool true) 0
       let c2 := r2.cell.disable_side_effect
       let r3 := c2.setState 3 PyVal.none (PyVal.bool false) 0
       let c3 := r3.cell.enable_side_effect
       let r4 := c3.setState 4 PyVal.none (PyVal.bool false) 0
       r1.error = Option.none ∧ r2.error = Option.none ∧
       r3.error = Option.none ∧ r4.error = Option.none ∧
       r1.cell.state = 1 ∧ invocations r1.trace = 1 ∧
       r2.cell.state = 2 ∧ invocations (r1.trace ++ r2.trace) = 1 ∧
       r3.cell.state = 3 ∧ invocations (r1.trace ++ r2.trace ++ r3.trace) = 1 ∧
       r4.cell.state = 4 ∧
       invocations (r1.trace ++ r2.trace ++ r3.trace ++ r4.trace) = 2) :=
  ⟨⟨0, PyVal.func false, false, false, false, Option.none⟩, by decide⟩

/-- C8: `disable_side_effect` and `enable_side_effect` are idempotent:
calling either twice produces exactly the same object as calling it
once (so the paused flag, and every other observable, agree), and they
set the paused flag to `true` and `false` respectively. -/
theorem C8_toggle_idempotent {α : Type} (c : SideEffect α) :
    c.disable_side_effect.disable_side_effect = c.disable_side_effect ∧
    c.enable_side_effect.enable_side_effect = c.enable_side_effect ∧
    c.disable_side_effect._side_effect_paused = true ∧
    c.enable_side_effect._side_effect_paused = false :=
  ⟨rfl, rfl, rfl, rfl⟩

/-- C10: the constructor raises `TypeError` exactly when `side_effect` is
not callable, or `asynchronous` is not a boolean, or `dependent` is not
a boolean; the initial value `default` is never validated (the statement
quantifies over it without constraint), and in every outcome — including
the failing ones — the `_state` attribute has already been assigned
`default`, since that assignment precedes the typechecks. -/
theorem C10_init_validation {α : Type} (default : α) (se asyn dep : PyVal) :
    (SideEffect.init default se asyn dep).isError
      = !(callable se && isinstance_bool asyn && isinstance_bool dep) ∧
    (SideEffect.init default se asyn dep).stateField = default := by
  cases se <;> cases asyn <;> cases dep <;>
    simp [SideEffect.init, typecheck, callable, isinstance_bool,
      InitResult.isError, InitResult.stateField]

/-- C7: when the `asynchronous` argument is provided (not `None`) and is
not a boolean, or when `cancel_side_effect` is not a boolean, `setState`
raises `TypeError` before doing anything: the returned object is the
unchanged input (same state, paused flag and tracked thread) and the
action trace is empty, so no effect invocation happened. -/
theorem C7_validation_atomic {α : Type} (c : SideEffect α) (v : α)
    (asyn cse : PyVal) (n : Nat)
    (h : (asyn ≠ PyVal.none ∧ isinstance_bool asyn = false) ∨
      isinstance_bool cse = false) :
    (c.setState v asyn cse n).error = some PyErr.typeError ∧
    (c.setState v asyn cse n).cell = c ∧
    (c.setState v asyn cse n).trace = [] := by
  rcases h with ⟨h1, h2⟩ | h
  · simp [SideEffect.setState, h1, h2]
  · by_cases ha : asyn ≠ PyVal.none ∧ isinstance_bool asyn = false
    · simp [SideEffect.setState, ha.1, ha.2]
    · simp [SideEffect.setState, ha, h]

/-- Witness for C7: passing the integer 1 for `cancel_side_effect` on a
concrete cell raises `TypeError` with nothing mutated. -/
theorem C7_validation_atomic_witness :
    ((⟨0, PyVal.func false, true, false, false, Option.none⟩ :
        SideEffect Nat).setState 5 PyVal.none (PyVal.int 1) 0).error
        = some PyErr.typeError ∧
    ((⟨0, PyVal.func false, true, false, false, Option.none⟩ :
        SideEffect Nat).setState 5 PyVal.none (PyVal.int 1) 0).cell
        = ⟨0, PyVal.func false, true, false, false, Option.none⟩ ∧
    ((⟨0, PyVal.func false, true, false, false, Option.none⟩ :
        SideEffect Nat).setState 5 PyVal.none (PyVal.int 1) 0).trace = [] :=
  C7_validation_atomic _ 5 PyVal.none (PyVal.int 1) 0 (Or.inr rfl)

/-- C4: a `setState` call with `cancel_side_effect = true` (and a valid
`asynchronous` argument: absent or boolean) updates the state to the
written value but performs no effect invocation and no launch, whatever
the paused flag and whatever the effective mode; no error is raised. -/
theorem C4_cancel_skips {α : Type} (c : SideEffect α) (v : α) (asyn : PyVal)
    (n : Nat) (ha : asyn = PyVal.none ∨ isinstance_bool asyn = true) :
    (c.setState v asyn (PyVal.bool true) n).cell._state = v ∧
    effectTriggered (c.setState v asyn (PyVal.bool true) n).trace = false ∧
    invocations (c.setState v asyn (PyVal.bool true) n).trace = 0 ∧
    (c.setState v asyn (PyVal.bool true) n).error = Option.none := by
  obtain ⟨s, se, casync, cdep, cpaused, cth⟩ := c
  rcases ha with rfl | ha
  · cases cth <;> cases cdep <;>
      simp [SideEffect.setState, effectTriggered, invocations, isinstance_bool]
  · cases asyn <;> simp_all [isinstance_bool]
    all_goals cases cth <;> cases cdep <;>
      simp [SideEffect.setState, effectTriggered, invocations, isinstance_bool]

/-- A valid `asynchronous` argument is `None` or a boolean literal. -/
lemma valid_mode {a : PyVal} (h : a = PyVal.none ∨ isinstance_bool a = true) :
    a = PyVal.none ∨ ∃ b, a = PyVal.bool b := by
  cases a <;> simp_all [isinstance_bool]

/-- A `PyVal` passing the boolean `isinstance` check is a boolean literal. -/
lemma bool_of_isinstance {a : PyVal} (h : isinstance_bool a = true) :
    ∃ b, a = PyVal.bool b := by
  cases a <;> simp_all [isinstance_bool]

/-- C3: the per-call `asynchronous` override is honoured, not discarded:
on a non-paused cell, `setState v (bool b) (bool false)` commits `v` and,
when `b = false`, invokes the effect directly during the call (an
`invoke` action, no launches); when `b = true`, launches a background
effect thread whose fresh id is recorded as the tracked in-flight
handle (a `launch` action, no direct invocation) — in both cases
irrespective of the cell's default mode. -/
theorem C3_mode_override {α : Type} (c : SideEffect α) (v : α) (b : Bool)
    (n : Nat) (hp : c._side_effect_paused = false) :
    (c.setState v (PyVal.bool b) (PyVal.bool false) n).cell._state = v ∧
    (b = false →
      Act.invoke ∈ (c.setState v (PyVal.bool b) (PyVal.bool false) n).trace ∧
      launches (c.setState v (PyVal.bool b) (PyVal.bool false) n).trace = 0) ∧
    (b = true →
      (c.setState v (PyVal.bool b) (PyVal.bool false) n).cell._side_effect_thread
          = some n ∧
      Act.launch n ∈ (c.setState v (PyVal.bool b) (PyVal.bool false) n).trace ∧
      invocations (c.setState v (PyVal.bool b) (PyVal.bool false) n).trace = 0) := by
  obtain ⟨s, se, casync, cdep, cpaused, cth⟩ := c
  subst hp
  cases b <;> cases cth <;> cases cdep <;>
    simp [SideEffect.setState, isinstance_bool, launches, invocations]

/-- C5: while the cell is paused, `setState` still commits the written
value but triggers no effect (no invocation, no launch); and after
`enable_side_effect`, the next `setState` without skip — in either
mode, default or overridden — triggers the effect again. -/
theorem C5_pause_semantics {α : Type} (c : SideEffect α) (v w : α)
    (a1 a2 : PyVal) (n m : Nat)
    (ha1 : a1 = PyVal.none ∨ isinstance_bool a1 = true)
    (ha2 : a2 = PyVal.none ∨ isinstance_bool a2 = true)
    (hp : c._side_effect_paused = true) :
    (c.setState v a1 (PyVal.bool false) n).cell._state = v ∧
    effectTriggered (c.setState v a1 (PyVal.bool false) n).trace = false ∧
    invocations (c.setState v a1 (PyVal.bool false) n).trace = 0 ∧
    (((c.setState v a1 (PyVal.bool false) n).cell.enable_side_effect).setState
        w a2 (PyVal.bool false) m).cell._state = w ∧
    effectTriggered
      (((c.setState v a1 (PyVal.bool false) n).cell.enable_side_effect).setState
        w a2 (PyVal.bool false) m).trace = true := by
  obtain ⟨s, se, casync, cdep, cpaused, cth⟩ := c
  subst hp
  rcases valid_mode ha1 with rfl | ⟨b1, rfl⟩
  · rcases valid_mode ha2 with rfl | ⟨b2, rfl⟩
    · cases casync <;> cases cth <;> cases cdep <;>
        simp [SideEffect.setState, SideEffect.enable_side_effect,
          effectTriggered, invocations, isinstance_bool]
    · cases casync <;> cases b2 <;> cases cth <;> cases cdep <;>
        simp [SideEffect.setState, SideEffect.enable_side_effect,
          effectTriggered, invocations, isinstance_bool]
  · rcases valid_mode ha2 with rfl | ⟨b2, rfl⟩
    · cases casync <;> cases b1 <;> cases cth <;> cases cdep <;>
        simp [SideEffect.setState, SideEffect.enable_side_effect,
          effectTriggered, invocations, isinstance_bool]
    · cases b1 <;> cases b2 <;> cases cth <;> cases cdep <;>
        simp [SideEffect.setState, SideEffect.enable_side_effect,
          effectTriggered, invocations, isinstance_bool]

/-- C6: when the effective mode of a `setState` call is synchronous
(per-call override `false`, or no override on a cell whose default is
synchronous), the cell is not paused, skip is not requested, and the
effect callback raises, then the failure propagates to the caller of
`setState` (the effect was invoked), and at that moment the state
already holds the newly written value — the commit is not rolled
back. -/
theorem C6_sync_failure {α : Type} (c : SideEffect α) (v : α) (asyn : PyVal)
    (n : Nat)
    (hmode : asyn = PyVal.bool false ∨
      (asyn = PyVal.none ∧ c._asynchronous = false))
    (hraise : c._side_effect = PyVal.func true)
    (hp : c._side_effect_paused = false) :
    (c.setState v asyn (PyVal.bool false) n).error = some PyErr.effectError ∧
    (c.setState v asyn (PyVal.bool false) n).cell._state = v ∧
    Act.invoke ∈ (c.setState v asyn (PyVal.bool false) n).trace := by
  obtain ⟨s, se, casync, cdep, cpaused, cth⟩ := c
  subst hp
  subst hraise
  rcases hmode with rfl | ⟨rfl, hm⟩
  · cases cth <;> cases cdep <;> simp [SideEffect.setState, isinstance_bool]
  · subst hm
    cases cth <;> cases cdep <;> simp [SideEffect.setState, isinstance_bool]

/-- C2: on a dependent cell with a tracked in-flight thread `t`, a
`setState` call with valid arguments first joins `t` — the join is the
first action of the trace, strictly before the commit and before any
launch or invocation — and clears the tracked handle (afterwards the
handle is either absent or the freshly launched thread's id, never `t`'s
old registration); the state is committed to the written value.  Since a
join completes the running effect thread, an effect launched by this
call starts only after the previous effect has fully completed. -/
theorem C2_dependent_join {α : Type} (c : SideEffect α) (t : Nat) (v : α)
    (asyn cse : PyVal) (n : Nat)
    (hdep : c._dependent = true)
    (hth : c._side_effect_thread = some t)
    (ha : asyn = PyVal.none ∨ isinstance_bool asyn = true)
    (hc : isinstance_bool cse = true) :
    (c.setState v asyn cse n).cell._state = v ∧
    (((c.setState v asyn cse n).trace = [Act.join t, Act.commit] ∧
        (c.setState v asyn cse n).cell._side_effect_thread = Option.none) ∨
     ((c.setState v asyn cse n).trace = [Act.join t, Act.commit, Act.invoke] ∧
        (c.setState v asyn cse n).cell._side_effect_thread = Option.none) ∨
     ((c.setState v asyn cse n).trace = [Act.join t, Act.commit, Act.launch n] ∧
        (c.setState v asyn cse n).cell._side_effect_thread = some n)) := by
  obtain ⟨s, se, casync, cdep, cpaused, cth⟩ := c
  subst hdep
  subst hth
  obtain ⟨k, rfl⟩ := bool_of_isinstance hc
  rcases valid_mode ha with rfl | ⟨b1, rfl⟩
  · cases casync <;> cases k <;> cases cpaused <;>
      simp [SideEffect.setState, isinstance_bool]
  · cases b1 <;> cases k <;> cases cpaused <;>
      simp [SideEffect.setState, isinstance_bool]

/-- C9: with valid construction arguments, the convenience function
`side_effect` returns the pair of accessors over one freshly constructed
cell: the getter is exactly the `state` property and the setter is
exactly the `setState` method (forwarding value, per-call mode and skip
flag unmodified — it is the very same function); the fresh cell holds
the initial value, and after `setter v` (with default per-call options)
the getter read on the resulting cell returns `v`. -/
theorem C9_adapter_round_trip {α : Type} (default : α) (se asyn dep : PyVal)
    (h1 : callable se = true) (h2 : isinstance_bool asyn = true)
    (h3 : isinstance_bool dep = true) :
    ∃ c : SideEffect α,
      SideEffect.init default se asyn dep = InitResult.ok c ∧
      side_effect default se asyn dep
        = some (c, SideEffect.state, SideEffect.setState) ∧
      SideEffect.state c = default ∧
      ∀ (v : α) (n : Nat),
        SideEffect.state
          (SideEffect.setState c v PyVal.none (PyVal.bool false) n).cell = v := by
  obtain ⟨b2, rfl⟩ := bool_of_isinstance h2
  obtain ⟨b3, rfl⟩ := bool_of_isinstance h3
  refine ⟨⟨default, se, b2, b3, false, Option.none⟩, ?_, ?_, rfl, ?_⟩
  · simp [SideEffect.init, typecheck, h1, isinstance_bool]
  · simp [side_effect, SideEffect.init, typecheck, h1, isinstance_bool]
  · intro v n
    cases b2 <;>
      simp [SideEffect.setState, SideEffect.state, isinstance_bool]

/-- A concrete unpaused independent cell (default asynchronous, benign
effect, no tracked thread), used to instantiate the general theorems. -/
def cellA : SideEffect Nat := ⟨0, PyVal.func false, true, false, false, Option.none⟩

/-- A concrete unpaused synchronous-by-default cell whose effect raises. -/
def cellSyncRaise : SideEffect Nat :=
  ⟨0, PyVal.func true, false, false, false, Option.none⟩

/-- A concrete dependent cell tracking in-flight effect thread 5. -/
def cellDep : SideEffect Nat := ⟨0, PyVal.func false, true, true, false, some 5⟩

/-- A concrete paused cell. -/
def cellPaused : SideEffect Nat :=
  ⟨0, PyVal.func false, false, false, true, Option.none⟩

/-- Witness for C2: the dependent cell tracking thread 5 joins it first,
commits 7, and here relaunches as thread 9. -/
theorem C2_dependent_join_witness :
    (cellDep.setState 7 PyVal.none (PyVal.bool false) 9).cell._state = 7 ∧
    (((cellDep.setState 7 PyVal.none (PyVal.bool false) 9).trace
          = [Act.join 5, Act.commit] ∧
        (cellDep.setState 7 PyVal.none (PyVal.bool false) 9).cell._side_effect_thread
          = Option.none) ∨
     ((cellDep.setState 7 PyVal.none (PyVal.bool false) 9).trace
          = [Act.join 5, Act.commit, Act.invoke] ∧
        (cellDep.setState 7 PyVal.none (PyVal.bool false) 9).cell._side_effect_thread
          = Option.none) ∨
     ((cellDep.setState 7 PyVal.none (PyVal.bool false) 9).trace
          = [Act.join 5, Act.commit, Act.launch 9] ∧
        (cellDep.setState 7 PyVal.none (PyVal.bool false) 9).cell._side_effect_thread
          = some 9)) :=
  C2_dependent_join cellDep 5 7 PyVal.none (PyVal.bool false) 9 rfl rfl
    (Or.inl rfl) rfl

/-- Witness for C3: overriding to asynchronous on a synchronous-capable
cell launches thread 7 and records it. -/
theorem C3_mode_override_witness :
    (cellA.setState 5 (PyVal.bool true) (PyVal.bool false) 7).cell._state = 5 ∧
    (true = false →
      Act.invoke ∈ (cellA.setState 5 (PyVal.bool true) (PyVal.bool false) 7).trace ∧
      launches (cellA.setState 5 (PyVal.bool true) (PyVal.bool false) 7).trace = 0) ∧
    (true = true →
      (cellA.setState 5 (PyVal.bool true) (PyVal.bool false) 7).cell._side_effect_thread
          = some 7 ∧
      Act.launch 7 ∈ (cellA.setState 5 (PyVal.bool true) (PyVal.bool false) 7).trace ∧
      invocations (cellA.setState 5 (PyVal.bool true) (PyVal.bool false) 7).trace = 0) :=
  C3_mode_override cellA 5 true 7 rfl

/-- Witness for C4: a skipped write commits 5 and triggers nothing. -/
theorem C4_cancel_skips_witness :
    (cellA.setState 5 PyVal.none (PyVal.bool true) 0).cell._state = 5 ∧
    effectTriggered (cellA.setState 5 PyVal.none (PyVal.bool true) 0).trace = false ∧
    invocations (cellA.setState 5 PyVal.none (PyVal.bool true) 0).trace = 0 ∧
    (cellA.setState 5 PyVal.none (PyVal.bool true) 0).error = Option.none :=
  C4_cancel_skips cellA 5 PyVal.none 0 (Or.inl rfl)

/-- Witness for C5: a paused write commits 1 without triggering the
effect; after re-enabling, the next write commits 2 and triggers it. -/
theorem C5_pause_semantics_witness :
    (cellPaused.setState 1 PyVal.none (PyVal.bool false) 0).cell._state = 1 ∧
    effectTriggered
      (cellPaused.setState 1 PyVal.none (PyVal.bool false) 0).trace = false ∧
    invocations (cellPaused.setState 1 PyVal.none (PyVal.bool false) 0).trace = 0 ∧
    (((cellPaused.setState 1 PyVal.none (PyVal.bool false) 0).cell.enable_side_effect).setState
        2 PyVal.none (PyVal.bool false) 0).cell._state = 2 ∧
    effectTriggered
      (((cellPaused.setState 1 PyVal.none (PyVal.bool false) 0).cell.enable_side_effect).setState
        2 PyVal.none (PyVal.bool false) 0).trace = true :=
  C5_pause_semantics cellPaused 1 2 PyVal.none PyVal.none 0 0
    (Or.inl rfl) (Or.inl rfl) rfl

/-- Witness for C6: a synchronous write of 3 with a raising effect
propagates the failure with the state already committed to 3. -/
theorem C6_sync_failure_witness :
    (cellSyncRaise.setState 3 (PyVal.bool false) (PyVal.bool false) 0).error
        = some PyErr.effectError ∧
    (cellSyncRaise.setState 3 (PyVal.bool false) (PyVal.bool false) 0).cell._state = 3 ∧
    Act.invoke ∈ (cellSyncRaise.setState 3 (PyVal.bool false) (PyVal.bool false) 0).trace :=
  C6_sync_failure cellSyncRaise 3 (PyVal.bool false) 0 (Or.inl rfl) rfl rfl

/-- Witness for C9: the adapter over a fresh cell with initial value 0
round-trips a write of 4. -/
theorem C9_adapter_round_trip_witness :
    ∃ c : SideEffect Nat,
      SideEffect.init 0 (PyVal.func false) (PyVal.bool true) (PyVal.bool false)
        = InitResult.ok c ∧
      side_effect 0 (PyVal.func false) (PyVal.bool true) (PyVal.bool false)
        = some (c, SideEffect.state, SideEffect.setState) ∧
      SideEffect.state c = 0 ∧
      ∀ (v : Nat) (n : Nat),
        SideEffect.state
          (SideEffect.setState c v PyVal.none (PyVal.bool false) n).cell = v :=
  C9_adapter_round_trip 0 (PyVal.func false) (PyVal.bool true) (PyVal.bool false)
    rfl rfl rfl
